import Mathlib

/-!
Verification development for the Storm RustCore interface
(`src/RustCore/storm.h`): an event-driven core coupling a prioritized
event bus with a hierarchical state store and deterministic,
AI-confidence-driven conflict resolution.

The header declares the interface (types, constants, signatures and their
documented return conventions); the behaviour behind those declarations is
modelled from the design specification, definition by definition, with each
modelled definition marked `Modelled from the spec:` in its doc comment.
Machine integers (`uint32_t`, `uint64_t`, `size_t`) are modelled as `Nat`
(the operations below never overflow them), byte buffers as `List Nat`,
and the `float` AI-confidence score as `ℚ`, which shares the ordering
behaviour the resolution policy relies on for scores in [0, 1].
-/

namespace Storm

/-! ## Result codes (storm.h lines 79-86) -/

def STORM_SUCCESS : Nat := 0
def STORM_ERROR_INVALID_PARAMETERS : Nat := 1
def STORM_ERROR_INITIALIZATION_FAILED : Nat := 2
def STORM_ERROR_OUT_OF_MEMORY : Nat := 3
def STORM_ERROR_AI_PROCESSING_FAILED : Nat := 4
def STORM_ERROR_PROTOCOL_ERROR : Nat := 5
def STORM_ERROR_STATE_CONFLICT : Nat := 6
def STORM_ERROR_NETWORK_ERROR : Nat := 7

/-- The closed result-code enumeration of storm.h lines 79-86, in the order
declared there.  Every public operation's status is one of these eight. -/
def storm_result_codes : List Nat :=
  [STORM_SUCCESS, STORM_ERROR_INVALID_PARAMETERS,
   STORM_ERROR_INITIALIZATION_FAILED, STORM_ERROR_OUT_OF_MEMORY,
   STORM_ERROR_AI_PROCESSING_FAILED, STORM_ERROR_PROTOCOL_ERROR,
   STORM_ERROR_STATE_CONFLICT, STORM_ERROR_NETWORK_ERROR]

/-- The names of the closed result-code enumeration, transliterated from the
macro names of storm.h lines 79-86 (the `STORM_`/`STORM_ERROR_` prefixes
stripped, as the spec writes them). -/
def storm_status_names : List String :=
  ["Success", "InvalidParameters", "InitializationFailed", "OutOfMemory",
   "AIProcessingFailed", "ProtocolError", "StateConflict", "NetworkError"]

/-! ## Component id constants (storm.h lines 104-110) -/

def STORM_COMPONENT_STATE_MANAGER : Nat := 1
def STORM_COMPONENT_EVENT_BUS : Nat := 2
def STORM_COMPONENT_AI_ORCHESTRATOR : Nat := 3
def STORM_COMPONENT_RENDER_ENGINE : Nat := 4
def STORM_COMPONENT_INPUT_CONTROLLER : Nat := 5
def STORM_COMPONENT_NETWORK_MANAGER : Nat := 6
def STORM_COMPONENT_BROADCAST : Nat := 0xFFFFFFFF

/-! ## Event type constants (storm.h lines 92-98) -/

def STORM_EVENT_STATE_CHANGE : Nat := 1
def STORM_EVENT_RENDER_FRAME : Nat := 2
def STORM_EVENT_USER_INPUT : Nat := 3
def STORM_EVENT_NETWORK_MESSAGE : Nat := 4
def STORM_EVENT_AI_ANALYSIS : Nat := 5
def STORM_EVENT_PROTOCOL_UPDATE : Nat := 6
def STORM_EVENT_PERFORMANCE_WARNING : Nat := 7

/-! ## Priorities (storm.h lines 28-34) -/

/-- `StormEventPriority` from storm.h lines 28-34: the five priority
classes of the event bus. -/
inductive StormEventPriority where
  | system
  | realtime
  | ai
  | network
  | background
deriving DecidableEq, Repr

/-- The numeric value each priority class is declared with in storm.h
(`STORM_PRIORITY_SYSTEM = 0` … `STORM_PRIORITY_BACKGROUND = 4`); smaller
values drain first. -/
def StormEventPriority.val : StormEventPriority → Nat
  | .system => 0
  | .realtime => 1
  | .ai => 2
  | .network => 3
  | .background => 4

/-! ## Events -/

/-- `StormEvent` from storm.h lines 46-57.  `priority` carries the declared
`StormEventPriority`; `ai_confidence` is the per-write AI confidence score
(declared `float`, range 0.0-1.0), modelled as `ℚ`. -/
structure StormEvent where
  event_id : Nat
  event_type : Nat
  priority : StormEventPriority
  ai_enhancement_level : Nat
  timestamp : Nat
  source_component : Nat
  target_component : Nat
  data_size : Nat
  ai_confidence : ℚ
  processing_flags : Nat
deriving DecidableEq, Repr

/-- An envelope as held by the bus: the event structure together with its
payload bytes. -/
def Envelope : Type := StormEvent × List Nat

instance : DecidableEq Envelope := instDecidableEqProd

/-! ## Priority queues -/

/-- Modelled from the spec: "multiple ready queues ordered by priority
class" — one FIFO list per declared priority class. -/
structure PrioQueues where
  system : List Envelope
  realtime : List Envelope
  ai : List Envelope
  network : List Envelope
  background : List Envelope
deriving DecidableEq

def emptyQueues : PrioQueues := ⟨[], [], [], [], []⟩

/-- The queue of one priority class. -/
def PrioQueues.get (q : PrioQueues) : StormEventPriority → List Envelope
  | .system => q.system
  | .realtime => q.realtime
  | .ai => q.ai
  | .network => q.network
  | .background => q.background

/-- Modelled from the spec: enqueuing appends the envelope at the tail of
its priority class's queue (FIFO by arrival within a class). -/
def PrioQueues.enqueue (q : PrioQueues) (x : Envelope) : PrioQueues :=
  match x.1.priority with
  | .system => { q with system := q.system ++ [x] }
  | .realtime => { q with realtime := q.realtime ++ [x] }
  | .ai => { q with ai := q.ai ++ [x] }
  | .network => { q with network := q.network ++ [x] }
  | .background => { q with background := q.background ++ [x] }

/-- Modelled from the spec: `tick` "drains queues strictly in priority
order (System before Realtime before AI before Network before Background);
within a priority class, FIFO by arrival" — the drain order is the
concatenation of the five class queues. -/
def PrioQueues.drain (q : PrioQueues) : List Envelope :=
  q.system ++ q.realtime ++ q.ai ++ q.network ++ q.background

/-- Enqueue a list of envelopes in arrival order. -/
def enqueueAll (es : List Envelope) : PrioQueues :=
  es.foldl PrioQueues.enqueue emptyQueues

/-! ## Subscriptions -/

/-- Modelled from the spec: a subscription maps an owning component id to
the set of accepted event types (storm.h `storm_runtime_subscribe`,
lines 148-158). -/
structure Subscription where
  component_id : Nat
  event_types : List Nat
deriving DecidableEq

/-- Modelled from the spec: an envelope is delivered to a subscription
"whose filter matches event type and whose target id matches (explicit id)
or is broadcast". -/
def subMatches (s : Subscription) (ev : StormEvent) : Bool :=
  (s.event_types.contains ev.event_type) &&
    (ev.target_component == s.component_id ||
     ev.target_component == STORM_COMPONENT_BROADCAST)

/-- The envelopes one subscriber observes during a tick, in delivery
order: the drain order restricted to matching envelopes. -/
def deliveredTo (s : Subscription) (q : PrioQueues) : List Envelope :=
  q.drain.filter (fun x => subMatches s x.1)

/-! ## Tick -/

/-- Modelled from the spec: `storm_runtime_tick` (storm.h lines 133-134)
dispatches exactly the envelopes present in the priority queues at entry,
in drain order; envelopes published during the tick are not dispatched but
enqueued for the next tick.  The first component is the dispatch list of
this tick, the second the queues left for the next tick, holding exactly
the envelopes published mid-tick (given in arrival order). -/
def runTick (entry : PrioQueues) (publishedDuring : List Envelope) :
    List Envelope × PrioQueues :=
  (entry.drain, enqueueAll publishedDuring)

/-! ## State store: writes, entries, conflicts -/

/-- A state write as the store's update contract receives it: target path,
value bytes, the caller-supplied AI confidence score, the writer protocol
name, and the write's timestamp (recorded into the entry). -/
structure Write where
  path : String
  value : List Nat
  confidence : ℚ
  protocol : String
  timestamp : Nat
deriving DecidableEq

/-- `StateEntry` modelled from the spec: current value bytes, version
counter, last-writer protocol name, last-write timestamp, last AI
confidence; `inWindow` records whether the entry was modified within the
current synchronization window (cleared by `synchronize`). -/
structure StateEntry where
  value : List Nat
  version : Nat
  protocol : String
  timestamp : Nat
  confidence : ℚ
  inWindow : Bool
deriving DecidableEq

/-- `ConflictRecord` modelled from the spec: produced when two writes to
the same path collide before synchronization; "holds both candidate
entries" — the incumbent (the visible entry, as a write) and the
challenger. -/
structure ConflictRecord where
  path : String
  incumbent : Write
  challenger : Write
deriving DecidableEq

/-- The visible entry at a path, rebuilt as the candidate write it came
from (used as the incumbent side of a conflict record). -/
def entryWrite (p : String) (e : StateEntry) : Write :=
  { path := p, value := e.value, confidence := e.confidence,
    protocol := e.protocol, timestamp := e.timestamp }

/-- First binding of a path in an association list of entries. -/
def findEntry : List (String × StateEntry) → String → Option StateEntry
  | [], _ => none
  | (k, e) :: rest, p => if k = p then some e else findEntry rest p

/-- Replace the binding of a path, or append a fresh one. -/
def setEntry : List (String × StateEntry) → String → StateEntry →
    List (String × StateEntry)
  | [], p, e => [(p, e)]
  | (k, old) :: rest, p, e =>
      if k = p then (p, e) :: rest else (k, old) :: setEntry rest p e

/-- Modelled from the spec: a `StatePath` is "a slash-delimited
hierarchical key (e.g. `/world/objects/123/position`)"; a write "is
rejected only on structurally invalid path syntax" — modelled as the path
being nonempty and beginning with the slash delimiter. -/
def validPath (p : String) : Bool :=
  match p.data with
  | c :: _ => c == '/'
  | [] => false

/-- Modelled from the spec: the store owns the path-indexed entries, the
pending conflict records, and a configured entry capacity (resource
exhaustion surfaces `OutOfMemory`). -/
structure StateStore where
  entries : List (String × StateEntry)
  conflicts : List ConflictRecord
  capacity : Nat
deriving DecidableEq

/-- An empty store with the given configured capacity. -/
def mkStore (cap : Nat) : StateStore :=
  { entries := [], conflicts := [], capacity := cap }

/-- Outcome of the store's update contract:
`accepted | conflict | rejected` per the spec, the rejections split by
their result code (invalid path syntax vs. store over capacity). -/
inductive UpdateResult where
  | accepted
  | conflictQueued
  | rejectedInvalid
  | rejectedOom
deriving DecidableEq, Repr

/-- The result code an update outcome surfaces (conflict is not an error:
the write is queued for resolution). -/
def UpdateResult.status : UpdateResult → Nat
  | .accepted => STORM_SUCCESS
  | .conflictQueued => STORM_SUCCESS
  | .rejectedInvalid => STORM_ERROR_INVALID_PARAMETERS
  | .rejectedOom => STORM_ERROR_OUT_OF_MEMORY

/-- The entry an accepted write installs. -/
def acceptEntry (w : Write) (version : Nat) : StateEntry :=
  { value := w.value, version := version, protocol := w.protocol,
    timestamp := w.timestamp, confidence := w.confidence, inWindow := true }

/-- Modelled from the spec: the store's update contract.  A write is
rejected on invalid path syntax; a fresh path over the configured capacity
is rejected with `OutOfMemory` leaving the store unchanged; a write to a
path last modified by a *different* protocol within the same
synchronization window with a *differing* value is queued as a
`ConflictRecord` rather than applied; every other write is accepted and
bumps the entry's version counter by one (a fresh path starts at 1). -/
def StateStore.update (s : StateStore) (w : Write) :
    UpdateResult × StateStore :=
  if ¬ validPath w.path then (.rejectedInvalid, s)
  else
    match findEntry s.entries w.path with
    | none =>
        if s.capacity ≤ s.entries.length then (.rejectedOom, s)
        else (.accepted,
          { s with entries := setEntry s.entries w.path (acceptEntry w 1) })
    | some e =>
        if e.inWindow ∧ e.protocol ≠ w.protocol ∧ e.value ≠ w.value then
          (.conflictQueued,
            { s with conflicts := s.conflicts ++
                [{ path := w.path, incumbent := entryWrite w.path e,
                   challenger := w }] })
        else (.accepted,
          { s with entries :=
              setEntry s.entries w.path (acceptEntry w (e.version + 1)) })

/-! ## Conflict resolution -/

/-- Modelled from the spec: the deterministic resolution policy — "compare
AI confidence scores of the two candidate writes; higher confidence wins;
on exact tie, the later timestamp wins; on exact tie of both, the write
whose protocol name sorts lexicographically first wins". -/
def resolveConflict (a b : Write) : Write :=
  if b.confidence < a.confidence then a
  else if a.confidence < b.confidence then b
  else if b.timestamp < a.timestamp then a
  else if a.timestamp < b.timestamp then b
  else if a.protocol < b.protocol then a
  else b

/-- Apply one conflict record's resolution to the entries: the winner's
value becomes visible; if the visible value changes the version counter is
bumped and the path is reported (a state-change event is emitted for it). -/
def applyResolution (es : List (String × StateEntry)) (r : ConflictRecord) :
    List (String × StateEntry) × Option String :=
  let w := resolveConflict r.incumbent r.challenger
  match findEntry es r.path with
  | none => (setEntry es r.path (acceptEntry w 1), some r.path)
  | some e =>
      if e.value = w.value then (es, none)
      else (setEntry es r.path (acceptEntry w (e.version + 1)), some r.path)

/-- Walk all pending conflict records in order, collecting the paths whose
visible value changed. -/
def resolveAll (es : List (String × StateEntry)) :
    List ConflictRecord → List (String × StateEntry) × List String
  | [] => (es, [])
  | r :: rest =>
      let step := applyResolution es r
      let next := resolveAll step.1 rest
      (next.1, (step.2.elim [] (fun p => [p])) ++ next.2)

/-- Close the synchronization window: mark every entry as no longer
modified within the current window. -/
def resetWindow (es : List (String × StateEntry)) :
    List (String × StateEntry) :=
  es.map (fun kv => (kv.1, { kv.2 with inWindow := false }))

/-- Modelled from the spec: `storm_state_synchronize` (storm.h lines
205-209) "walks all pending ConflictRecords, applies the resolution
policy, clears resolved records, and emits one state-change event per path
whose visible value changed"; it also closes the synchronization window.
Returns the new store and the changed paths (one emitted event each). -/
def StateStore.synchronize (s : StateStore) : StateStore × List String :=
  let rs := resolveAll s.entries s.conflicts
  ({ s with entries := resetWindow rs.1, conflicts := [] }, rs.2)

/-- The visible value and version at a path, if ever written. -/
def StateStore.get (s : StateStore) (p : String) : Option (List Nat × Nat) :=
  (findEntry s.entries p).map (fun e => (e.value, e.version))

/-- The version counter visible at a path (0 when never written). -/
def versionAt (s : StateStore) (p : String) : Nat :=
  (findEntry s.entries p).elim 0 (fun e => e.version)

/-- Modelled from the spec: `storm_state_get` (storm.h lines 199-203)
fails when the path was never written.  The spec names this failure
`NotFound`, but the header's closed result-code set (storm.h lines 79-86)
declares no such code, so the model surfaces the failure with the
validation-error code `STORM_ERROR_INVALID_PARAMETERS`; a present path
returns `STORM_SUCCESS` with the value and version. -/
def storm_state_get (s : StateStore) (p : String) :
    Nat × Option (List Nat × Nat) :=
  match s.get p with
  | some dv => (STORM_SUCCESS, some dv)
  | none => (STORM_ERROR_INVALID_PARAMETERS, none)

/-! ## Declared signatures

The header is declarations only, so its parameter lists are themselves
facts to check.  Each list below transliterates one declaration's
parameter names, in order. -/

/-- Parameter names of `storm_state_update` as declared in storm.h lines
185-189: `(handle, path, data, data_len, source_protocol)`. -/
def storm_state_update_params : List String :=
  ["handle", "path", "data", "data_len", "source_protocol"]

/-- The update signature the spec's interface section writes instead:
`state.update(path, data, confidence, protocol)`. -/
def spec_state_update_params : List String :=
  ["path", "data", "confidence", "protocol"]

/-! ## Runtime -/

/-- Modelled from the spec: the configured limits `storm_runtime_initialize`
establishes — the maximum payload size a publish accepts and the total
queue capacity past which publishes are rejected with `OutOfMemory`. -/
structure StormConfig where
  max_payload : Nat
  queue_capacity : Nat
deriving DecidableEq

/-- Modelled from the spec: the runtime instance behind
`StormRuntimeHandle` — configuration, the priority queues, the monotonic
event-id allocator together with the ids it has handed out, the
subscription registry and its id allocator, the callback registry and its
id allocator, the state store, and the last result code (storm.h declares
`storm_get_last_error`). -/
structure StormRuntime where
  config : StormConfig
  queues : PrioQueues
  next_event_id : Nat
  issued_event_ids : List Nat
  next_sub_id : Nat
  subs : List (Nat × Subscription)
  next_cb_id : Nat
  cbs : List Nat
  store : StateStore
  last_status : Nat
deriving DecidableEq

/-- Modelled from the spec: a fresh runtime — empty queues, registries and
store, every id allocator starting at 1 (0 is the failure sentinel of the
handle-returning calls), and default configured limits. -/
def storm_runtime_create : StormRuntime :=
  { config := { max_payload := 4096, queue_capacity := 1024 },
    queues := emptyQueues,
    next_event_id := 1, issued_event_ids := [],
    next_sub_id := 1, subs := [],
    next_cb_id := 1, cbs := [],
    store := mkStore 1024,
    last_status := STORM_SUCCESS }

/-- The validation-failure condition of publish, modelled from the spec:
"fails with `InvalidParameters` if target component id is zero and not
broadcast, or payload exceeds a configured maximum". -/
def publishInvalid (cfg : StormConfig) (ev : StormEvent)
    (data : List Nat) : Prop :=
  (ev.target_component = 0 ∧
    ev.target_component ≠ STORM_COMPONENT_BROADCAST) ∨
  cfg.max_payload < data.length

instance (cfg : StormConfig) (ev : StormEvent) (data : List Nat) :
    Decidable (publishInvalid cfg ev data) := by
  unfold publishInvalid; infer_instance

/-- Modelled from the spec: `storm_runtime_publish_event` (storm.h lines
136-146, "Returns: Event ID or 0 on failure").  Validation failure
surfaces `InvalidParameters` and returns 0; a full queue surfaces
`OutOfMemory` and returns 0, rejecting only the new item; otherwise the
envelope (stamped with the freshly allocated id) is appended to its
priority class's queue and the monotonically increasing id is returned. -/
def storm_runtime_publish_event (rt : StormRuntime) (ev : StormEvent)
    (data : List Nat) : Nat × StormRuntime :=
  if publishInvalid rt.config ev data then
    (0, { rt with last_status := STORM_ERROR_INVALID_PARAMETERS })
  else if rt.config.queue_capacity ≤ rt.queues.drain.length then
    (0, { rt with last_status := STORM_ERROR_OUT_OF_MEMORY })
  else
    (rt.next_event_id,
     { rt with
        queues := rt.queues.enqueue
          ({ ev with event_id := rt.next_event_id }, data),
        next_event_id := rt.next_event_id + 1,
        issued_event_ids := rt.issued_event_ids ++ [rt.next_event_id],
        last_status := STORM_SUCCESS })

/-- First subscription owned by a component, with its handle. -/
def findSub : List (Nat × Subscription) → Nat → Option (Nat × Subscription)
  | [], _ => none
  | (h, s) :: rest, cid =>
      if s.component_id = cid then some (h, s) else findSub rest cid

/-- Replace the subscription bound to a handle. -/
def setSub : List (Nat × Subscription) → Nat → Subscription →
    List (Nat × Subscription)
  | [], h, s => [(h, s)]
  | (k, old) :: rest, h, s =>
      if k = h then (h, s) :: rest else (k, old) :: setSub rest h s

/-- Modelled from the spec: `storm_runtime_subscribe` (storm.h lines
148-158, "Returns: Subscription handle or 0 on failure") — "fails with
`InvalidParameters` on empty type set; idempotent re-subscription merges
type sets".  A re-subscription merges into the component's existing
subscription and returns its existing handle; a first subscription is
registered under a fresh handle. -/
def storm_runtime_subscribe (rt : StormRuntime) (component_id : Nat)
    (event_types : List Nat) : Nat × StormRuntime :=
  if event_types = [] then
    (0, { rt with last_status := STORM_ERROR_INVALID_PARAMETERS })
  else
    match findSub rt.subs component_id with
    | some hs =>
        (hs.1, { rt with
          subs := setSub rt.subs hs.1
            { hs.2 with event_types :=
                hs.2.event_types ++
                  event_types.filter (fun t => ¬ hs.2.event_types.contains t) },
          last_status := STORM_SUCCESS })
    | none =>
        (rt.next_sub_id,
         { rt with
            subs := rt.subs ++
              [(rt.next_sub_id, { component_id := component_id,
                                  event_types := event_types })],
            next_sub_id := rt.next_sub_id + 1,
            last_status := STORM_SUCCESS })

/-- Modelled from the spec: `storm_runtime_register_callback` (storm.h
lines 349-357, "Returns: Callback handle or 0 on failure").  The C
callback function pointer is abstracted to its validity (`false` stands
for a NULL pointer, the one failure the declaration admits); a valid
callback is registered under a fresh handle. -/
def storm_runtime_register_callback (rt : StormRuntime)
    (callback_valid : Bool) : Nat × StormRuntime :=
  if callback_valid then
    (rt.next_cb_id,
     { rt with cbs := rt.cbs ++ [rt.next_cb_id],
               next_cb_id := rt.next_cb_id + 1,
               last_status := STORM_SUCCESS })
  else (0, { rt with last_status := STORM_ERROR_INVALID_PARAMETERS })

/-- Well-formedness of a runtime: every id allocator is past the failure
sentinel 0, every issued event id is below the allocator, and every
registered subscription handle is a past allocation. -/
def WF (rt : StormRuntime) : Prop :=
  1 ≤ rt.next_event_id ∧
  (∀ i ∈ rt.issued_event_ids, i < rt.next_event_id) ∧
  1 ≤ rt.next_sub_id ∧
  (∀ x ∈ rt.subs, 1 ≤ x.1 ∧ x.1 < rt.next_sub_id) ∧
  1 ≤ rt.next_cb_id

instance (rt : StormRuntime) : Decidable (WF rt) := by
  unfold WF; infer_instance

/-! ## Queue lemmas -/

theorem emptyQueues_get (p : StormEventPriority) : emptyQueues.get p = [] := by
  cases p <;> rfl

theorem get_enqueue (q : PrioQueues) (x : Envelope) (p : StormEventPriority) :
    (q.enqueue x).get p =
      if x.1.priority = p then q.get p ++ [x] else q.get p := by
  obtain ⟨ev, d⟩ := x
  cases h : ev.priority <;> cases p <;>
    simp [PrioQueues.enqueue, PrioQueues.get, h]

theorem foldl_enqueue_get (es : List Envelope) (q : PrioQueues)
    (p : StormEventPriority) :
    (es.foldl PrioQueues.enqueue q).get p
      = q.get p ++ es.filter (fun x => x.1.priority == p) := by
  induction es generalizing q with
  | nil => simp
  | cons x es ih =>
      rw [List.foldl_cons, ih]
      by_cases h : x.1.priority = p
      · simp [get_enqueue, h, List.filter_cons]
      · simp [get_enqueue, h, List.filter_cons]

theorem get_enqueueAll (es : List Envelope) (p : StormEventPriority) :
    (enqueueAll es).get p = es.filter (fun x => x.1.priority == p) := by
  simp [enqueueAll, foldl_enqueue_get, emptyQueues_get]

theorem mem_get_enqueueAll_priority {x : Envelope} {es : List Envelope}
    {p : StormEventPriority} (h : x ∈ (enqueueAll es).get p) :
    x.1.priority = p := by
  rw [get_enqueueAll] at h
  have := (List.mem_filter.1 h).2
  simpa using this

theorem drain_eq_gets (q : PrioQueues) :
    q.drain = q.get .system ++ q.get .realtime ++ q.get .ai ++
      q.get .network ++ q.get .background := rfl

theorem mem_drain_enqueueAll {x : Envelope} {es : List Envelope} :
    x ∈ (enqueueAll es).drain ↔ x ∈ es := by
  constructor
  · intro h
    rw [drain_eq_gets] at h
    simp only [List.mem_append, get_enqueueAll, List.mem_filter] at h
    tauto
  · intro h
    have hx : x ∈ (enqueueAll es).get x.1.priority := by
      rw [get_enqueueAll]
      exact List.mem_filter.2 ⟨h, by simp⟩
    rw [drain_eq_gets]
    simp only [List.mem_append]
    cases hp : x.1.priority <;> rw [hp] at hx <;> tauto

theorem filter_prio_prio (es : List Envelope) (p q : StormEventPriority) :
    (es.filter (fun x => x.1.priority == q)).filter
        (fun x => x.1.priority == p)
      = if q = p then es.filter (fun x => x.1.priority == p) else [] := by
  by_cases h : q = p
  · rw [if_pos h]
    subst h
    apply List.filter_eq_self.2
    intro a ha
    exact (List.mem_filter.1 ha).2
  · rw [if_neg h]
    apply List.filter_eq_nil_iff.2
    intro a ha hpa
    have hq : a.1.priority = q := by simpa using (List.mem_filter.1 ha).2
    have hp : a.1.priority = p := by simpa using hpa
    exact h (hq ▸ hp)

theorem drain_enqueueAll_filter (es : List Envelope) (p : StormEventPriority) :
    (enqueueAll es).drain.filter (fun x => x.1.priority == p)
      = es.filter (fun x => x.1.priority == p) := by
  rw [drain_eq_gets]
  simp only [List.filter_append, get_enqueueAll, filter_prio_prio]
  cases p <;> simp

theorem drain_enqueueAll_pairwise (es : List Envelope) :
    ((enqueueAll es).drain).Pairwise
      (fun a b : Envelope => a.1.priority.val ≤ b.1.priority.val) := by
  have hseg : ∀ p : StormEventPriority,
      (((enqueueAll es).get p).Pairwise
        (fun a b : Envelope => a.1.priority.val ≤ b.1.priority.val)) := by
    intro p
    apply List.pairwise_of_forall_mem_list
    intro a ha b hb
    rw [mem_get_enqueueAll_priority ha, mem_get_enqueueAll_priority hb]
  have hcross : ∀ p q : StormEventPriority, p.val ≤ q.val →
      ∀ a ∈ (enqueueAll es).get p, ∀ b ∈ (enqueueAll es).get q,
        a.1.priority.val ≤ b.1.priority.val := by
    intro p q hpq a ha b hb
    rw [mem_get_enqueueAll_priority ha, mem_get_enqueueAll_priority hb]
    exact hpq
  rw [drain_eq_gets, List.append_assoc, List.append_assoc, List.append_assoc]
  refine List.pairwise_append.2 ⟨hseg .system,
    List.pairwise_append.2 ⟨hseg .realtime,
      List.pairwise_append.2 ⟨hseg .ai,
        List.pairwise_append.2 ⟨hseg .network, hseg .background,
          hcross .network .background (by decide)⟩, ?_⟩, ?_⟩, ?_⟩
  · intro a ha b hb
    rcases List.mem_append.1 hb with hb | hb
    · exact hcross .ai .network (by decide) a ha b hb
    · exact hcross .ai .background (by decide) a ha b hb
  · intro a ha b hb
    rcases List.mem_append.1 hb with hb | hb
    · exact hcross .realtime .ai (by decide) a ha b hb
    rcases List.mem_append.1 hb with hb | hb
    · exact hcross .realtime .network (by decide) a ha b hb
    · exact hcross .realtime .background (by decide) a ha b hb
  · intro a ha b hb
    rcases List.mem_append.1 hb with hb | hb
    · exact hcross .system .realtime (by decide) a ha b hb
    rcases List.mem_append.1 hb with hb | hb
    · exact hcross .system .ai (by decide) a ha b hb
    rcases List.mem_append.1 hb with hb | hb
    · exact hcross .system .network (by decide) a ha b hb
    · exact hcross .system .background (by decide) a ha b hb

theorem deliveredTo_filter (s : Subscription) (es : List Envelope)
    (p : StormEventPriority) :
    (deliveredTo s (enqueueAll es)).filter (fun x => x.1.priority == p)
      = (es.filter (fun x => subMatches s x.1)).filter
          (fun x => x.1.priority == p) := by
  unfold deliveredTo
  rw [List.filter_comm, drain_enqueueAll_filter, List.filter_comm]

/-! ## State store lemmas -/

theorem findEntry_setEntry_self (l : List (String × StateEntry))
    (p : String) (e : StateEntry) :
    findEntry (setEntry l p e) p = some e := by
  induction l with
  | nil => simp [setEntry, findEntry]
  | cons kv rest ih =>
      by_cases h : kv.1 = p
      · simp [setEntry, findEntry, h]
      · simp [setEntry, findEntry, h, ih]

theorem findEntry_setEntry_ne (l : List (String × StateEntry))
    (p q : String) (e : StateEntry) (h : q ≠ p) :
    findEntry (setEntry l p e) q = findEntry l q := by
  induction l with
  | nil => simp [setEntry, findEntry, Ne.symm h]
  | cons kv rest ih =>
      by_cases hk : kv.1 = p
      · simp [setEntry, findEntry, hk, Ne.symm h]
      · by_cases hq : kv.1 = q
        · simp [setEntry, findEntry, hk, hq, h]
        · simp [setEntry, findEntry, hk, hq, ih]

theorem findEntry_resetWindow (l : List (String × StateEntry)) (p : String) :
    findEntry (resetWindow l) p
      = (findEntry l p).map (fun e => { e with inWindow := false }) := by
  induction l with
  | nil => simp [resetWindow, findEntry]
  | cons kv rest ih =>
      rw [show resetWindow (kv :: rest)
            = (kv.1, { kv.2 with inWindow := false }) :: resetWindow rest
          from rfl]
      by_cases h : kv.1 = p
      · simp [findEntry, h]
      · simp [findEntry, h, ih]

/-- The version visible in an entry list (0 when the path is absent). -/
def versionOf (l : List (String × StateEntry)) (p : String) : Nat :=
  (findEntry l p).elim 0 (fun e => e.version)

theorem versionAt_eq_versionOf (s : StateStore) (p : String) :
    versionAt s p = versionOf s.entries p := rfl

theorem versionOf_resetWindow (l : List (String × StateEntry)) (p : String) :
    versionOf (resetWindow l) p = versionOf l p := by
  unfold versionOf
  rw [findEntry_resetWindow]
  cases findEntry l p <;> rfl

theorem versionOf_applyResolution (l : List (String × StateEntry))
    (r : ConflictRecord) (p : String) :
    versionOf l p ≤ versionOf (applyResolution l r).1 p := by
  unfold applyResolution
  cases hf : findEntry l r.path with
  | none =>
      by_cases hp : p = r.path
      · subst hp
        simp [versionOf, hf, findEntry_setEntry_self]
      · simp [versionOf, hf, findEntry_setEntry_ne _ _ _ _ hp]
  | some e =>
      by_cases hv : e.value = (resolveConflict r.incumbent r.challenger).value
      · simp [versionOf, hf, hv]
      · by_cases hp : p = r.path
        · subst hp
          simp [versionOf, hf, hv, findEntry_setEntry_self, acceptEntry]
        · simp [versionOf, hf, hv, findEntry_setEntry_ne _ _ _ _ hp]

theorem versionOf_resolveAll (rs : List ConflictRecord)
    (l : List (String × StateEntry)) (p : String) :
    versionOf l p ≤ versionOf (resolveAll l rs).1 p := by
  induction rs generalizing l with
  | nil => simp [resolveAll]
  | cons r rest ih =>
      calc versionOf l p ≤ versionOf (applyResolution l r).1 p :=
              versionOf_applyResolution l r p
        _ ≤ versionOf (resolveAll (applyResolution l r).1 rest).1 p := ih _
        _ = versionOf (resolveAll l (r :: rest)).1 p := rfl

theorem versionAt_synchronize (s : StateStore) (p : String) :
    versionAt s p ≤ versionAt s.synchronize.1 p := by
  show versionOf s.entries p ≤
    versionOf (resetWindow (resolveAll s.entries s.conflicts).1) p
  rw [versionOf_resetWindow]
  exact versionOf_resolveAll _ _ _

/-! ## Conflict resolution lemmas -/

theorem resolveConflict_cases (a b : Write) :
    resolveConflict a b = a ∨ resolveConflict a b = b := by
  unfold resolveConflict
  split_ifs <;> simp

theorem resolveConflict_comm (a b : Write) (h : a.protocol ≠ b.protocol) :
    resolveConflict a b = resolveConflict b a := by
  rcases lt_trichotomy a.confidence b.confidence with hc | hc | hc
  · simp [resolveConflict, hc, not_lt.2 hc.le]
  · rcases lt_trichotomy a.timestamp b.timestamp with ht | ht | ht
    · simp [resolveConflict, hc, lt_irrefl, ht, not_lt.2 ht.le]
    · rcases lt_or_gt_of_ne h with hp | hp
      · simp [resolveConflict, hc, ht, lt_irrefl, hp, not_lt.2 hp.le]
      · simp [resolveConflict, hc, ht, lt_irrefl, hp, not_lt.2 hp.le]
    · simp [resolveConflict, hc, lt_irrefl, ht, not_lt.2 ht.le]
  · simp [resolveConflict, hc, not_lt.2 hc.le]

theorem resolveConflict_higher_confidence (a b : Write)
    (h : b.confidence < a.confidence) : resolveConflict a b = a := by
  unfold resolveConflict
  rw [if_pos h]

theorem resolveConflict_later_timestamp (a b : Write)
    (hc : a.confidence = b.confidence) (h : b.timestamp < a.timestamp) :
    resolveConflict a b = a := by
  unfold resolveConflict
  rw [hc]
  simp only [lt_irrefl, if_false]
  rw [if_pos h]

theorem resolveConflict_protocol_order (a b : Write)
    (hc : a.confidence = b.confidence) (ht : a.timestamp = b.timestamp)
    (h : a.protocol < b.protocol) : resolveConflict a b = a := by
  unfold resolveConflict
  rw [hc, ht]
  simp only [lt_irrefl, if_false]
  rw [if_pos h]

/-! ## Update computation lemmas -/

theorem update_fresh (cap : Nat) (w : Write) (hv : validPath w.path = true)
    (hcap : 0 < cap) :
    (mkStore cap).update w = (.accepted,
      { entries := [(w.path, acceptEntry w 1)], conflicts := [],
        capacity := cap }) := by
  simp [StateStore.update, mkStore, findEntry, hv, setEntry, Nat.not_le.2 hcap]

theorem update_existing (s : StateStore) (w : Write) (e : StateEntry)
    (hv : validPath w.path = true)
    (hf : findEntry s.entries w.path = some e)
    (hno : ¬ (e.inWindow ∧ e.protocol ≠ w.protocol ∧ e.value ≠ w.value)) :
    s.update w = (.accepted,
      { s with entries :=
          setEntry s.entries w.path (acceptEntry w (e.version + 1)) }) := by
  simp [StateStore.update, hv, hf, hno]

theorem update_conflict (s : StateStore) (w : Write) (e : StateEntry)
    (hv : validPath w.path = true)
    (hf : findEntry s.entries w.path = some e)
    (hw : e.inWindow = true) (hp : e.protocol ≠ w.protocol)
    (hval : e.value ≠ w.value) :
    s.update w = (.conflictQueued,
      { s with conflicts := s.conflicts ++
          [{ path := w.path, incumbent := entryWrite w.path e,
             challenger := w }] }) := by
  simp [StateStore.update, hv, hf, hw, hp, hval]

/-! ## Two conflicting writes followed by synchronize -/

/-- The visible value at the written path after replaying, on a fresh
store, an accepted first write, a second conflicting write, and one
`synchronize` pass. -/
def twoWriteSyncValue (w1 w2 : Write) : Option (List Nat) :=
  (findEntry ((((mkStore 1024).update w1).2.update
      w2).2.synchronize.1.entries) w1.path).map (fun e => e.value)

theorem twoWriteSyncValue_eq (w1 w2 : Write)
    (hpath : w1.path = w2.path) (hv : validPath w1.path = true)
    (hproto : w1.protocol ≠ w2.protocol) (hval : w1.value ≠ w2.value) :
    twoWriteSyncValue w1 w2 = some (resolveConflict w1 w2).value := by
  have hv2 : validPath w2.path = true := hpath ▸ hv
  have h1 : (mkStore 1024).update w1 = (.accepted,
      { entries := [(w1.path, acceptEntry w1 1)], conflicts := [],
        capacity := 1024 }) := update_fresh 1024 w1 hv (by norm_num)
  have hf2 : findEntry [(w1.path, acceptEntry w1 1)] w2.path
      = some (acceptEntry w1 1) := by
    simp [findEntry, hpath]
  have h2 : StateStore.update
      { entries := [(w1.path, acceptEntry w1 1)], conflicts := [],
        capacity := 1024 } w2
      = (.conflictQueued,
        { entries := [(w1.path, acceptEntry w1 1)],
          conflicts := [{ path := w2.path,
                          incumbent := entryWrite w2.path (acceptEntry w1 1),
                          challenger := w2 }],
          capacity := 1024 }) := by
    have := update_conflict
      { entries := [(w1.path, acceptEntry w1 1)], conflicts := [],
        capacity := 1024 } w2 (acceptEntry w1 1) hv2 hf2 rfl
      (by simpa [acceptEntry] using hproto)
      (by simpa [acceptEntry] using hval)
    simpa using this
  have hiw : entryWrite w2.path (acceptEntry w1 1) = w1 := by
    rw [← hpath]; exact rfl
  have h1s : ((mkStore 1024).update w1).2
      = { entries := [(w1.path, acceptEntry w1 1)], conflicts := [],
          capacity := 1024 } := by rw [h1]
  have h2s : (StateStore.update
      { entries := [(w1.path, acceptEntry w1 1)], conflicts := [],
        capacity := 1024 } w2).2
      = { entries := [(w1.path, acceptEntry w1 1)],
          conflicts := [{ path := w2.path,
                          incumbent := entryWrite w2.path (acceptEntry w1 1),
                          challenger := w2 }],
          capacity := 1024 } := by rw [h2]
  unfold twoWriteSyncValue
  rw [h1s, h2s, hiw]
  rcases resolveConflict_cases w1 w2 with hres | hres
  · simp [StateStore.synchronize, resolveAll, applyResolution, findEntry,
      hpath, hres, acceptEntry, resetWindow]
  · simp [StateStore.synchronize, resolveAll, applyResolution, findEntry,
      hpath, hres, acceptEntry, resetWindow, setEntry, hval]

/-! ## Version behaviour of one update -/

theorem update_version_cases (s : StateStore) (w : Write) (p : String) :
    ((s.update w).1 = .accepted ∧
      (w.path = p → versionAt (s.update w).2 p = versionAt s p + 1) ∧
      (w.path ≠ p → versionAt (s.update w).2 p = versionAt s p)) ∨
    ((s.update w).1 ≠ .accepted ∧
      versionAt (s.update w).2 p = versionAt s p) := by
  by_cases hv : validPath w.path
  · cases hf : findEntry s.entries w.path with
    | none =>
        by_cases hcap : s.capacity ≤ s.entries.length
        · right
          have hu : s.update w = (.rejectedOom, s) := by
            simp [StateStore.update, hv, hf, hcap]
          rw [hu]
          exact ⟨by simp, rfl⟩
        · left
          have hu : s.update w = (.accepted,
              { s with entries :=
                  setEntry s.entries w.path (acceptEntry w 1) }) := by
            simp [StateStore.update, hv, hf, hcap]
          rw [hu]
          refine ⟨rfl, ?_, ?_⟩
          · intro hp
            subst hp
            simp [versionAt, versionOf, findEntry_setEntry_self,
              acceptEntry, hf]
          · intro hp
            simp [versionAt, versionOf,
              findEntry_setEntry_ne _ _ _ _ (Ne.symm hp)]
    | some e =>
        by_cases hc : e.inWindow ∧ e.protocol ≠ w.protocol ∧
            e.value ≠ w.value
        · right
          obtain ⟨hw, hp2, hval2⟩ := hc
          have hu := update_conflict s w e hv hf hw hp2 hval2
          rw [hu]
          exact ⟨by simp, rfl⟩
        · left
          have hu := update_existing s w e hv hf hc
          rw [hu]
          refine ⟨rfl, ?_, ?_⟩
          · intro hp
            subst hp
            simp [versionAt, versionOf, findEntry_setEntry_self,
              acceptEntry, hf]
          · intro hp
            simp [versionAt, versionOf,
              findEntry_setEntry_ne _ _ _ _ (Ne.symm hp)]
  · right
    have hu : s.update w = (.rejectedInvalid, s) := by
      simp [StateStore.update, hv]
    rw [hu]
    exact ⟨by simp, rfl⟩

/-! ## Runtime lemmas -/

theorem findSub_mem (l : List (Nat × Subscription)) (cid : Nat)
    (hs : Nat × Subscription) (h : findSub l cid = some hs) : hs ∈ l := by
  induction l with
  | nil => simp [findSub] at h
  | cons kv rest ih =>
      by_cases hk : kv.2.component_id = cid
      · simp [findSub, hk] at h
        simp [← h]
      · simp [findSub, hk] at h
        exact List.mem_cons_of_mem _ (ih h)

/-! ## Concrete instances for witnesses and counterexamples -/

/-- A concrete event used in witnesses: a broadcast-targeted event. -/
def mkScenEvent (ty : Nat) (p : StormEventPriority) (ts : Nat) : StormEvent :=
  { event_id := 0, event_type := ty, priority := p,
    ai_enhancement_level := 0, timestamp := ts, source_component := 5,
    target_component := STORM_COMPONENT_BROADCAST, data_size := 1,
    ai_confidence := mkRat 1 2, processing_flags := 0 }

/-- Scenario envelope 1: Background priority, enqueued first. -/
def scenBg : Envelope := (mkScenEvent STORM_EVENT_RENDER_FRAME .background 10, [1])

/-- Scenario envelope 2: System priority, enqueued second. -/
def scenSys : Envelope := (mkScenEvent STORM_EVENT_USER_INPUT .system 11, [2])

/-- Scenario envelope 3: AI priority, enqueued third. -/
def scenAi : Envelope := (mkScenEvent STORM_EVENT_AI_ANALYSIS .ai 12, [3])

/-- The scenario subscriber, subscribed to all three scenario event types. -/
def scenSub : Subscription :=
  { component_id := 9,
    event_types := [STORM_EVENT_RENDER_FRAME, STORM_EVENT_USER_INPUT,
      STORM_EVENT_AI_ANALYSIS] }

/-- Concrete conflicting write with the lower confidence (0.4). -/
def cWriteA : Write :=
  { path := "/world/objects/1/position", value := [1], confidence := mkRat 2 5,
    protocol := "alpha", timestamp := 100 }

/-- Concrete conflicting write with the higher confidence (0.9). -/
def cWriteB : Write :=
  { path := "/world/objects/1/position", value := [2], confidence := mkRat 9 10,
    protocol := "beta", timestamp := 101 }

/-- A runtime whose configured queue capacity is exhausted (zero). -/
def fullRuntime : StormRuntime :=
  { storm_runtime_create with
      config := { max_payload := 4096, queue_capacity := 0 } }

/-- A concrete valid event: nonzero explicit target, payload within the
configured maximum. -/
def cEvent : StormEvent :=
  { event_id := 0, event_type := STORM_EVENT_USER_INPUT,
    priority := .realtime, ai_enhancement_level := 0, timestamp := 5,
    source_component := 6, target_component := 7, data_size := 1,
    ai_confidence := mkRat 1 2, processing_flags := 0 }

/-- A third concrete write, with full confidence. -/
def cWriteC : Write :=
  { path := "/world/objects/2/rotation", value := [9], confidence := 1,
    protocol := "gamma", timestamp := 7 }

/-! ## Claims -/

/-- C1: the resolution `synchronize()` performs on two conflicting writes
to the same path is the deterministic total order — higher AI confidence
wins; on exact confidence tie the later timestamp wins; on exact tie of
both the lexicographically first protocol name wins — and the resolved
outcome is independent of the order in which the two writes arrived. -/
theorem C1_conflict_resolution_deterministic (w1 w2 : Write)
    (hproto : w1.protocol ≠ w2.protocol) :
    (w2.confidence < w1.confidence → resolveConflict w1 w2 = w1) ∧
    (w1.confidence = w2.confidence → w2.timestamp < w1.timestamp →
      resolveConflict w1 w2 = w1) ∧
    (w1.confidence = w2.confidence → w1.timestamp = w2.timestamp →
      w1.protocol < w2.protocol → resolveConflict w1 w2 = w1) ∧
    resolveConflict w1 w2 = resolveConflict w2 w1 ∧
    (w1.path = w2.path → validPath w1.path = true → w1.value ≠ w2.value →
      twoWriteSyncValue w1 w2 = some (resolveConflict w1 w2).value ∧
      twoWriteSyncValue w1 w2 = twoWriteSyncValue w2 w1) := by
  refine ⟨resolveConflict_higher_confidence w1 w2,
    resolveConflict_later_timestamp w1 w2,
    resolveConflict_protocol_order w1 w2,
    resolveConflict_comm w1 w2 hproto, ?_⟩
  intro hpath hv hval
  refine ⟨twoWriteSyncValue_eq w1 w2 hpath hv hproto hval, ?_⟩
  rw [twoWriteSyncValue_eq w1 w2 hpath hv hproto hval,
    twoWriteSyncValue_eq w2 w1 hpath.symm (hpath ▸ hv) (Ne.symm hproto)
      (Ne.symm hval),
    resolveConflict_comm w1 w2 hproto]

/-- Witness for C1 at the spec's own scenario: writes of confidence 0.4
and 0.9 to `/world/objects/1/position`; the 0.9 write wins and the
outcome is arrival-order independent. -/
theorem C1_witness :
    resolveConflict cWriteB cWriteA = cWriteB ∧
    twoWriteSyncValue cWriteB cWriteA = some cWriteB.value ∧
    twoWriteSyncValue cWriteB cWriteA = twoWriteSyncValue cWriteA cWriteB := by
  have h := C1_conflict_resolution_deterministic cWriteB cWriteA (by decide)
  have hw := h.2.2.2.2 (by decide) (by decide) (by decide)
  exact ⟨h.1 (by decide), by rw [hw.1, h.1 (by decide)], hw.2⟩

/-- C2: a tick delivers the envelopes enqueued before it to any single
subscriber in priority-major order (System, Realtime, AI, Network,
Background) and FIFO within a class; in particular, publishing events of
priorities Background, System, AI in that order yields delivery order
System, AI, Background at a subscriber of all three. -/
theorem C2_priority_major_fifo_delivery :
    (∀ (es : List Envelope) (s : Subscription),
      (deliveredTo s (enqueueAll es)).Pairwise
        (fun a b => a.1.priority.val ≤ b.1.priority.val) ∧
      (∀ p : StormEventPriority,
        (deliveredTo s (enqueueAll es)).filter (fun x => x.1.priority == p)
          = (es.filter (fun x => subMatches s x.1)).filter
              (fun x => x.1.priority == p))) ∧
    deliveredTo scenSub (enqueueAll [scenBg, scenSys, scenAi])
      = [scenSys, scenAi, scenBg] := by
  constructor
  · intro es s
    constructor
    · exact (drain_enqueueAll_pairwise es).sublist (List.filter_sublist _)
    · intro p
      exact deliveredTo_filter s es p
  · decide

/-- C3: every envelope present in the priority queues when a tick is
entered is dispatched by that tick, and no envelope published during the
tick is delivered within it — such envelopes sit in the queues for the
next tick. -/
theorem C3_no_carry_over_and_deferral (entry : PrioQueues)
    (during : List Envelope) :
    (runTick entry during).1 = entry.drain ∧
    (∀ p : StormEventPriority, ∀ x ∈ entry.get p,
      x ∈ (runTick entry during).1) ∧
    (∀ x ∈ during, x ∈ (runTick entry during).2.drain) ∧
    (∀ x ∈ during,
      x.1.event_id ∉ entry.drain.map (fun y => y.1.event_id) →
      x ∉ (runTick entry during).1) := by
  refine ⟨rfl, ?_, ?_, ?_⟩
  · intro p x hx
    show x ∈ entry.drain
    cases p <;> simp only [PrioQueues.get] at hx <;>
      simp [PrioQueues.drain, List.mem_append] <;> tauto
  · intro x hx
    show x ∈ (enqueueAll during).drain
    exact mem_drain_enqueueAll.2 hx
  · intro x _ hid hmem
    exact hid (List.mem_map.2 ⟨x, hmem, rfl⟩)

/-- Witness for C3: an envelope published during a tick that began with
empty queues is queued for the next tick and is not delivered in the
current tick. -/
theorem C3_witness :
    scenBg ∈ (runTick emptyQueues [scenBg]).2.drain ∧
    scenBg ∉ (runTick emptyQueues [scenBg]).1 := by
  have h := C3_no_carry_over_and_deferral emptyQueues [scenBg]
  exact ⟨h.2.2.1 scenBg (by simp), h.2.2.2 scenBg (by simp) (by decide)⟩

/-- C4: a `StateEntry`'s version counter rises by exactly one on every
accepted write (so it strictly increases), is untouched by a rejected or
conflict-queued write, and never decreases under any update or
synchronize. -/
theorem C4_version_counter_monotone (s : StateStore) (w : Write)
    (p : String) :
    ((s.update w).1 = .accepted → w.path = p →
        versionAt (s.update w).2 p = versionAt s p + 1) ∧
    ((s.update w).1 ≠ .accepted →
        versionAt (s.update w).2 p = versionAt s p) ∧
    versionAt s p ≤ versionAt (s.update w).2 p ∧
    versionAt s p ≤ versionAt s.synchronize.1 p := by
  refine ⟨?_, ?_, ?_, versionAt_synchronize s p⟩
  · intro hr hp
    rcases update_version_cases s w p with ⟨_, h1, _⟩ | ⟨hne, _⟩
    · exact h1 hp
    · exact absurd hr hne
  · intro hr
    rcases update_version_cases s w p with ⟨ha, _, _⟩ | ⟨_, h⟩
    · exact absurd ha hr
    · exact h
  · rcases update_version_cases s w p with ⟨_, h1, h2⟩ | ⟨_, h⟩
    · by_cases hp : w.path = p
      · rw [h1 hp]
        omega
      · rw [h2 hp]
    · rw [h]

/-- Witness for C4: an accepted first write to a fresh path raises the
version from 0 to 1. -/
theorem C4_witness :
    versionAt ((mkStore 4).update cWriteA).2 cWriteA.path
      = versionAt (mkStore 4) cWriteA.path + 1 :=
  (C4_version_counter_monotone (mkStore 4) cWriteA cWriteA.path).1
    (by decide) rfl

/-- C5 counterexample: the declared parameter list of `storm_state_update`
(storm.h lines 185-189) carries no confidence parameter, though the spec's
interface section writes `update(path, data, confidence, protocol)`. -/
theorem C5_counterexample :
    "confidence" ∉ storm_state_update_params ∧
    "confidence" ∈ spec_state_update_params := by decide

/-- C5 (amended): `storm_state_update` takes `(handle, path, data,
data_len, source_protocol)` — no caller-supplied AI confidence parameter;
the per-write confidence that drives the conflict resolution policy is
carried with the write itself (the envelope's `ai_confidence` field of
`StormEvent`), higher confidence winning. -/
theorem C5_update_signature_without_confidence :
    storm_state_update_params
      = ["handle", "path", "data", "data_len", "source_protocol"] ∧
    "confidence" ∉ storm_state_update_params ∧
    (∀ e : StormEvent, ∀ q : ℚ,
      ({ e with ai_confidence := q } : StormEvent).ai_confidence = q) ∧
    (∀ w1 w2 : Write, w2.confidence < w1.confidence →
      resolveConflict w1 w2 = w1) :=
  ⟨rfl, by decide, fun _ _ => rfl, resolveConflict_higher_confidence⟩

/-- Witness for C5: the full-confidence write beats the 0.4-confidence
write under the resolution policy. -/
theorem C5_witness : resolveConflict cWriteC cWriteA = cWriteC :=
  C5_update_signature_without_confidence.2.2.2 cWriteC cWriteA (by decide)

/-- C6 counterexample: a publish that passes validation (nonzero explicit
target, payload within the configured maximum) but hits an exhausted queue
capacity does not enqueue and does not return a fresh id — it returns 0
with `OutOfMemory`, leaving the queues unchanged. -/
theorem C6_counterexample :
    ¬ publishInvalid fullRuntime.config cEvent [42] ∧
    (storm_runtime_publish_event fullRuntime cEvent [42]).1 = 0 ∧
    (storm_runtime_publish_event fullRuntime cEvent [42]).2.queues
      = fullRuntime.queues ∧
    (storm_runtime_publish_event fullRuntime cEvent [42]).2.last_status
      = STORM_ERROR_OUT_OF_MEMORY := by decide

/-- C6 (amended): publish fails with `InvalidParameters` exactly when the
target component id is zero and not the broadcast sentinel or the payload
exceeds the configured maximum; otherwise, provided the queue capacity is
not exhausted (exhaustion surfaces `OutOfMemory` instead), it enqueues the
envelope into its priority class's queue and returns a freshly allocated
event id strictly greater than every previously returned event id. -/
theorem C6_publish_validation_and_fresh_id (rt : StormRuntime)
    (ev : StormEvent) (data : List Nat) (hwf : WF rt) :
    (((storm_runtime_publish_event rt ev data).1 = 0 ∧
       (storm_runtime_publish_event rt ev data).2.last_status
         = STORM_ERROR_INVALID_PARAMETERS)
      ↔ publishInvalid rt.config ev data) ∧
    (¬ publishInvalid rt.config ev data →
      rt.queues.drain.length < rt.config.queue_capacity →
      (storm_runtime_publish_event rt ev data).1 = rt.next_event_id ∧
      (storm_runtime_publish_event rt ev data).2.queues
        = rt.queues.enqueue ({ ev with event_id := rt.next_event_id }, data) ∧
      (∀ i ∈ rt.issued_event_ids,
        i < (storm_runtime_publish_event rt ev data).1) ∧
      (storm_runtime_publish_event rt ev data).2.issued_event_ids
        = rt.issued_event_ids ++
            [(storm_runtime_publish_event rt ev data).1] ∧
      WF (storm_runtime_publish_event rt ev data).2) := by
  obtain ⟨he1, he2, hs1, hsubs, hc1⟩ := hwf
  by_cases hinv : publishInvalid rt.config ev data
  · have hu : storm_runtime_publish_event rt ev data
        = (0, { rt with last_status := STORM_ERROR_INVALID_PARAMETERS }) := by
      simp [storm_runtime_publish_event, hinv]
    rw [hu]
    constructor
    · simp [hinv]
    · intro hn
      exact absurd hinv hn
  · by_cases hcap : rt.config.queue_capacity ≤ rt.queues.drain.length
    · have hu : storm_runtime_publish_event rt ev data
          = (0, { rt with last_status := STORM_ERROR_OUT_OF_MEMORY }) := by
        simp [storm_runtime_publish_event, hinv, hcap]
      rw [hu]
      constructor
      · constructor
        · rintro ⟨-, h⟩
          simp [STORM_ERROR_OUT_OF_MEMORY,
            STORM_ERROR_INVALID_PARAMETERS] at h
        · intro h
          exact absurd h hinv
      · intro _ hlt
        exact absurd hlt (not_lt.2 hcap)
    · have hu : storm_runtime_publish_event rt ev data
          = (rt.next_event_id,
            { rt with
                queues := rt.queues.enqueue
                  ({ ev with event_id := rt.next_event_id }, data),
                next_event_id := rt.next_event_id + 1,
                issued_event_ids :=
                  rt.issued_event_ids ++ [rt.next_event_id],
                last_status := STORM_SUCCESS }) := by
        simp [storm_runtime_publish_event, hinv, hcap]
      rw [hu]
      constructor
      · constructor
        · rintro ⟨h0, -⟩
          simp only [] at h0
          have h1 : rt.next_event_id = 0 := h0
          omega
        · intro h
          exact absurd h hinv
      · intro _ _
        refine ⟨rfl, rfl, fun i hi => he2 i hi, rfl, ?_⟩
        refine ⟨Nat.succ_le_succ (Nat.zero_le _), ?_, hs1, hsubs, hc1⟩
        intro i hi
        have hi2 : i ∈ rt.issued_event_ids ++ [rt.next_event_id] := hi
        show i < rt.next_event_id + 1
        rcases List.mem_append.1 hi2 with h | h
        · exact Nat.lt_succ_of_lt (he2 i h)
        · have : i = rt.next_event_id := by simpa using h
          omega

/-- Witness for C6: publishing a valid event on a fresh runtime returns
the first allocated event id. -/
theorem C6_witness :
    (storm_runtime_publish_event storm_runtime_create cEvent [42]).1
      = storm_runtime_create.next_event_id :=
  ((C6_publish_validation_and_fresh_id storm_runtime_create cEvent [42]
    (by decide)).2 (by decide) (by decide)).1

/-- C7 counterexample: the closed result-code enumeration declared in
storm.h lines 79-86 contains no `NotFound` code, so a `NotFound` result
cannot belong to it. -/
theorem C7_counterexample : "NotFound" ∉ storm_status_names := by decide

/-- C7 (amended): retrieval of a never-written path fails with a
non-`Success` status, and that status — like the status of every modelled
public operation — belongs to the closed result-code enumeration of
storm.h (which has no `NotFound` member; the model surfaces the failure as
`InvalidParameters`). -/
theorem C7_get_missing_path_closed_codes (s : StateStore) (p : String)
    (hf : findEntry s.entries p = none) :
    ((storm_state_get s p).1 ≠ STORM_SUCCESS ∧
     (storm_state_get s p).1 ∈ storm_result_codes ∧
     (storm_state_get s p).2 = none) ∧
    (∀ (s2 : StateStore) (p2 : String),
      (storm_state_get s2 p2).1 ∈ storm_result_codes) ∧
    (∀ (s3 : StateStore) (w : Write),
      ((s3.update w).1).status ∈ storm_result_codes) ∧
    (∀ (rt : StormRuntime) (ev : StormEvent) (d : List Nat),
      (storm_runtime_publish_event rt ev d).2.last_status
        ∈ storm_result_codes) := by
  refine ⟨?_, ?_, ?_, ?_⟩
  · have hu : storm_state_get s p = (STORM_ERROR_INVALID_PARAMETERS, none) := by
      simp [storm_state_get, StateStore.get, hf]
    rw [hu]
    exact ⟨by decide, by decide, rfl⟩
  · intro s2 p2
    unfold storm_state_get
    rcases StateStore.get s2 p2 with - | dv
    · show STORM_ERROR_INVALID_PARAMETERS ∈ storm_result_codes
      decide
    · show STORM_SUCCESS ∈ storm_result_codes
      decide
  · intro s3 w
    cases h : (s3.update w).1 <;> decide
  · intro rt ev d
    unfold storm_runtime_publish_event
    split_ifs
    · show STORM_ERROR_INVALID_PARAMETERS ∈ storm_result_codes
      decide
    · show STORM_ERROR_OUT_OF_MEMORY ∈ storm_result_codes
      decide
    · show STORM_SUCCESS ∈ storm_result_codes
      decide

/-- Witness for C7: retrieval from an empty store fails with a non-Success
code inside the closed enumeration. -/
theorem C7_witness :
    (storm_state_get (mkStore 4) "/missing").1 ≠ STORM_SUCCESS ∧
    (storm_state_get (mkStore 4) "/missing").1 ∈ storm_result_codes :=
  ⟨(C7_get_missing_path_closed_codes (mkStore 4) "/missing" rfl).1.1,
   (C7_get_missing_path_closed_codes (mkStore 4) "/missing" rfl).1.2.1⟩

/-- C8: on a fresh path, `update(path, data, 1.0, "p1")` followed by
`get(path)` returns exactly `data` at version 1, and a second update to
the same path raises the version to 2. -/
theorem C8_round_trip_versions (path : String) (data data2 : List Nat)
    (c2 : ℚ) (ts1 ts2 : Nat) (hv : validPath path = true) :
    ((mkStore 1024).update ⟨path, data, 1, "p1", ts1⟩).1 = .accepted ∧
    ((mkStore 1024).update ⟨path, data, 1, "p1", ts1⟩).2.get path
      = some (data, 1) ∧
    (((mkStore 1024).update ⟨path, data, 1, "p1", ts1⟩).2.update
        ⟨path, data2, c2, "p1", ts2⟩).1 = .accepted ∧
    (((mkStore 1024).update ⟨path, data, 1, "p1", ts1⟩).2.update
        ⟨path, data2, c2, "p1", ts2⟩).2.get path = some (data2, 2) := by
  have h1 := update_fresh 1024 ⟨path, data, 1, "p1", ts1⟩ hv (by norm_num)
  have h1s : ((mkStore 1024).update ⟨path, data, 1, "p1", ts1⟩).2
      = { entries := [(path, acceptEntry ⟨path, data, 1, "p1", ts1⟩ 1)],
          conflicts := [], capacity := 1024 } := by rw [h1]
  have hf : findEntry
      [(path, acceptEntry ⟨path, data, 1, "p1", ts1⟩ 1)] path
      = some (acceptEntry ⟨path, data, 1, "p1", ts1⟩ 1) := by
    simp [findEntry]
  have h2 := update_existing
    { entries := [(path, acceptEntry ⟨path, data, 1, "p1", ts1⟩ 1)],
      conflicts := [], capacity := 1024 }
    ⟨path, data2, c2, "p1", ts2⟩
    (acceptEntry ⟨path, data, 1, "p1", ts1⟩ 1) hv hf
    (by simp [acceptEntry])
  refine ⟨by rw [h1], ?_, ?_, ?_⟩
  · rw [h1s]
    simp [StateStore.get, findEntry, acceptEntry]
  · rw [h1s, h2]
  · rw [h1s, h2]
    simp [StateStore.get, findEntry_setEntry_self, acceptEntry]

/-- Witness for C8 at a concrete path and values. -/
theorem C8_witness :
    (((mkStore 1024).update ⟨"/x", [5], 1, "p1", 0⟩).2.update
        ⟨"/x", [6], 1, "p1", 1⟩).2.get "/x" = some ([6], 2) :=
  (C8_round_trip_versions "/x" [5] [6] 1 0 1 (by decide)).2.2.2

/-- C9: a publish or state write rejected for capacity exhaustion surfaces
`OutOfMemory`, loses only the new item, and leaves every previously
accepted event and state entry unchanged. -/
theorem C9_out_of_memory_preserves_state :
    (∀ (rt : StormRuntime) (ev : StormEvent) (data : List Nat),
      ¬ publishInvalid rt.config ev data →
      rt.config.queue_capacity ≤ rt.queues.drain.length →
      (storm_runtime_publish_event rt ev data).1 = 0 ∧
      (storm_runtime_publish_event rt ev data).2.last_status
        = STORM_ERROR_OUT_OF_MEMORY ∧
      (storm_runtime_publish_event rt ev data).2.queues = rt.queues ∧
      (storm_runtime_publish_event rt ev data).2.issued_event_ids
        = rt.issued_event_ids ∧
      (storm_runtime_publish_event rt ev data).2.next_event_id
        = rt.next_event_id ∧
      (storm_runtime_publish_event rt ev data).2.store = rt.store ∧
      (storm_runtime_publish_event rt ev data).2.subs = rt.subs) ∧
    (∀ (s : StateStore) (w : Write),
      validPath w.path = true → findEntry s.entries w.path = none →
      s.capacity ≤ s.entries.length →
      s.update w = (.rejectedOom, s) ∧
      UpdateResult.rejectedOom.status = STORM_ERROR_OUT_OF_MEMORY) := by
  constructor
  · intro rt ev data hinv hcap
    have hu : storm_runtime_publish_event rt ev data
        = (0, { rt with last_status := STORM_ERROR_OUT_OF_MEMORY }) := by
      simp [storm_runtime_publish_event, hinv, hcap]
    rw [hu]
    exact ⟨rfl, rfl, rfl, rfl, rfl, rfl, rfl⟩
  · intro s w hv hf hcap
    exact ⟨by simp [StateStore.update, hv, hf, hcap], rfl⟩

/-- Witness for C9: a valid publish against an exhausted queue and a fresh
write against an exhausted store both reject only the new item. -/
theorem C9_witness :
    (storm_runtime_publish_event fullRuntime cEvent [7]).2.queues
      = fullRuntime.queues ∧
    (mkStore 0).update cWriteA = (.rejectedOom, mkStore 0) :=
  ⟨(C9_out_of_memory_preserves_state.1 fullRuntime cEvent [7]
      (by decide) (by decide)).2.2.1,
   (C9_out_of_memory_preserves_state.2 (mkStore 0) cWriteA
      (by decide) rfl (by decide)).1⟩

/-- C10: `storm_runtime_publish_event`, `storm_runtime_subscribe` and
`storm_runtime_register_callback` return 0 exactly when the operation
fails; a successful call never returns 0, so 0 is never a valid event id,
subscription handle, or callback handle. -/
theorem C10_zero_iff_failure (rt : StormRuntime) (ev : StormEvent)
    (data : List Nat) (cid : Nat) (types : List Nat) (cb : Bool)
    (hwf : WF rt) :
    ((storm_runtime_publish_event rt ev data).1 = 0 ↔
      (storm_runtime_publish_event rt ev data).2.last_status
        ≠ STORM_SUCCESS) ∧
    ((storm_runtime_subscribe rt cid types).1 = 0 ↔
      (storm_runtime_subscribe rt cid types).2.last_status
        ≠ STORM_SUCCESS) ∧
    ((storm_runtime_register_callback rt cb).1 = 0 ↔
      (storm_runtime_register_callback rt cb).2.last_status
        ≠ STORM_SUCCESS) := by
  obtain ⟨he1, he2, hs1, hsubs, hc1⟩ := hwf
  refine ⟨?_, ?_, ?_⟩
  · by_cases hinv : publishInvalid rt.config ev data
    · have hu : storm_runtime_publish_event rt ev data
          = (0, { rt with
              last_status := STORM_ERROR_INVALID_PARAMETERS }) := by
        simp [storm_runtime_publish_event, hinv]
      rw [hu]
      simp [STORM_ERROR_INVALID_PARAMETERS, STORM_SUCCESS]
    · by_cases hcap : rt.config.queue_capacity ≤ rt.queues.drain.length
      · have hu : storm_runtime_publish_event rt ev data
            = (0, { rt with
                last_status := STORM_ERROR_OUT_OF_MEMORY }) := by
          simp [storm_runtime_publish_event, hinv, hcap]
        rw [hu]
        simp [STORM_ERROR_OUT_OF_MEMORY, STORM_SUCCESS]
      · have hu : storm_runtime_publish_event rt ev data
            = (rt.next_event_id,
              { rt with
                  queues := rt.queues.enqueue
                    ({ ev with event_id := rt.next_event_id }, data),
                  next_event_id := rt.next_event_id + 1,
                  issued_event_ids :=
                    rt.issued_event_ids ++ [rt.next_event_id],
                  last_status := STORM_SUCCESS }) := by
          simp [storm_runtime_publish_event, hinv, hcap]
        rw [hu]
        constructor
        · intro h0
          have h1 : rt.next_event_id = 0 := h0
          omega
        · intro hne
          exact absurd rfl hne
  · by_cases hty : types = []
    · have hu : storm_runtime_subscribe rt cid types
          = (0, { rt with
              last_status := STORM_ERROR_INVALID_PARAMETERS }) := by
        simp [storm_runtime_subscribe, hty]
      rw [hu]
      simp [STORM_ERROR_INVALID_PARAMETERS, STORM_SUCCESS]
    · cases hfind : findSub rt.subs cid with
      | some hs =>
          have hu : storm_runtime_subscribe rt cid types
              = (hs.1, { rt with
                  subs := setSub rt.subs hs.1
                    { hs.2 with event_types :=
                        hs.2.event_types ++
                          types.filter (fun t => ¬ hs.2.event_types.contains t) },
                  last_status := STORM_SUCCESS }) := by
            simp [storm_runtime_subscribe, hty, hfind]
          rw [hu]
          have hpos : 1 ≤ hs.1 :=
            (hsubs hs (findSub_mem rt.subs cid hs hfind)).1
          constructor
          · intro h0
            have h1 : hs.1 = 0 := h0
            omega
          · intro hne
            exact absurd rfl hne
      | none =>
          have hu : storm_runtime_subscribe rt cid types
              = (rt.next_sub_id, { rt with
                  subs := rt.subs ++
                    [(rt.next_sub_id, { component_id := cid,
                                        event_types := types })],
                  next_sub_id := rt.next_sub_id + 1,
                  last_status := STORM_SUCCESS }) := by
            simp [storm_runtime_subscribe, hty, hfind]
          rw [hu]
          constructor
          · intro h0
            have h1 : rt.next_sub_id = 0 := h0
            omega
          · intro hne
            exact absurd rfl hne
  · cases cb with
    | false =>
        have hu : storm_runtime_register_callback rt false
            = (0, { rt with
                last_status := STORM_ERROR_INVALID_PARAMETERS }) := by
          simp [storm_runtime_register_callback]
        rw [hu]
        simp [STORM_ERROR_INVALID_PARAMETERS, STORM_SUCCESS]
    | true =>
        have hu : storm_runtime_register_callback rt true
            = (rt.next_cb_id, { rt with
                cbs := rt.cbs ++ [rt.next_cb_id],
                next_cb_id := rt.next_cb_id + 1,
                last_status := STORM_SUCCESS }) := by
          simp [storm_runtime_register_callback]
        rw [hu]
        constructor
        · intro h0
          have h1 : rt.next_cb_id = 0 := h0
          omega
        · intro hne
          exact absurd rfl hne

/-- Witness for C10: on a fresh runtime, registering an invalid (NULL)
callback returns 0 and a failure status. -/
theorem C10_witness :
    (storm_runtime_register_callback storm_runtime_create false).1 = 0 ↔
    (storm_runtime_register_callback storm_runtime_create
        false).2.last_status ≠ STORM_SUCCESS :=
  (C10_zero_iff_failure storm_runtime_create cEvent [1] 4 [1, 2] false
    (by decide)).2.2

end Storm
